import Mathlib

/-!
Shallow embedding of the output-parsing and anomaly-detection logic of
alarmageddon/validations/kafka.py: the two health checks
KafkaStatusValidation.perform_on_host and
KafkaConsumerLagMonitor.perform_on_host, modelled as pure functions from
the raw command output (and host name) to an outcome.
-/

namespace Alarmageddon

/-- Modelled from the spec: the reporting capability fail_on_host lives in
alarmageddon/validations/ssh.py, which is not part of the sources here; per
the spec a failure is recorded for the host and the check stops at once
(it does not proceed to parsing), and absence of a fail call is a pass.
pyerror models an uncaught Python exception (for example an IndexError)
escaping perform_on_host: no pass and no recorded host failure. -/
inductive Outcome where
  | passed : Outcome
  | failed (msg : String) : Outcome
  | pyerror : Outcome
deriving DecidableEq

/-- The three failure markers scanned for in the raw output
(error_patterns in both perform_on_host bodies). -/
def errorPatterns : List String := ["No such file", "Missing required argument", "Exception"]

/-- Python substring test x in output: pat occurs contiguously in s. -/
def strContains (s pat : String) : Bool :=
  s.toList.tails.any (fun t => pat.toList.isPrefixOf t)

/-- any(x in output for x in error_patterns). -/
def hasErrorMarker (output : String) : Bool :=
  errorPatterns.any (fun x => strContains output x)

/-- Python sep.join(pieces). -/
def pyJoin (sep : String) : List String → String
  | [] => ""
  | [x] => x
  | x :: rest => x ++ sep ++ pyJoin sep rest

/-- Python str.format on a template that references positional fields 0
and 1 (the templates are written with fields for the host and the raw
output): if fewer than two positional arguments are supplied the call
raises IndexError, modelled as none. -/
def pyFormat2 (mk : String → String → String) (args : List String) : Option String :=
  match args.get? 0, args.get? 1 with
  | some a0, some a1 => some (mk a0 a1)
  | _, _ => none

/-- Python str of the 2-tuple (host, output): this single string is the
one positional argument actually passed to format in both checkers. The
exact quoting of the components is irrelevant: the format call raises
before this value is ever inspected. -/
def pyStrPair (host output : String) : String :=
  "(" ++ host ++ ", " ++ output ++ ")"

/-- Split a character list at every character satisfying p, keeping empty
pieces, as Python re.split on a single-character alternation does. -/
def splitChars (p : Char → Bool) : List Char → List (List Char)
  | [] => [[]]
  | c :: rest =>
    if p c then [] :: splitChars p rest
    else
      match splitChars p rest with
      | [] => [[c]]
      | l :: ls => (c :: l) :: ls

/-- Delimiter class of re.split applied with tab-or-newline in
KafkaStatusValidation.perform_on_host. -/
def isTabNL (c : Char) : Bool := c = '\t' || c = '\n'

/-- parsed, the token list of the status checker: re.split on tab or
newline over the whole raw output. -/
def reSplitTabNL (s : String) : List String :=
  (splitChars isTabNL s.toList).map (fun l => String.mk l)

/-- Python xrange(start, stop, step) for a positive step. -/
def xrange (start stop step : Nat) : List Nat :=
  List.range' start ((stop - start + step - 1) / step) step

/-- A Python list comprehension indexing xs at each index of the list:
none models the IndexError raised when an index is out of range. -/
def optIdx (xs : List String) : List Nat → Option (List String)
  | [] => some []
  | i :: is =>
    match xs.get? i, optIdx xs is with
    | some v, some vs => some (v :: vs)
    | _, _ => none

/-- topics of the status checker: parsed indexed at 0, 5, 10, ... -/
def topicsOf (parsed : List String) : Option (List String) :=
  optIdx parsed (xrange 0 parsed.length 5)

/-- leaders of the status checker: parsed indexed at 2, 7, 12, ... -/
def leadersOf (parsed : List String) : Option (List String) :=
  optIdx parsed (xrange 2 parsed.length 5)

/-- Total form of topics, justified by the bounds proof below. -/
def topicsT (parsed : List String) : List String :=
  (xrange 0 parsed.length 5).map (fun i => parsed.getD i "")

/-- Total form of leaders, justified by the bounds proof below. -/
def leadersT (parsed : List String) : List String :=
  (xrange 2 parsed.length 5).map (fun i => parsed.getD i "")

/-- Keys of Counter(tuples).items(), taken in first-occurrence order (the
CPython dict order is an implementation detail; only the set of keys and
their counts are observable through the checker when at most one key is
duplicated). -/
def firstOccAux : List (String × String) → List (String × String) → List (String × String)
  | [], _ => []
  | x :: rest, seen =>
    if seen.contains x then firstOccAux rest seen
    else x :: firstOccAux rest (seen ++ [x])

def firstOccKeys (l : List (String × String)) : List (String × String) :=
  firstOccAux l []

/-- Counter(tuples).items(): each distinct tuple with its multiplicity. -/
def counterItems (l : List (String × String)) : List ((String × String) × Nat) :=
  (firstOccKeys l).map (fun k => (k, l.count k))

/-- duplicates: the keys whose count exceeds 1. -/
def duplicates (l : List (String × String)) : List (String × String) :=
  ((counterItems l).filter (fun kv => kv.2 > 1)).map (fun kv => kv.1)

/-- The failure message built by the status checker for a non-empty
duplicates list. -/
def statusDupMsg (dups : List (String × String)) : String :=
  "Kafka partitions are out of sync. " ++
    "Multiple leaders for the same partition " ++
    "for the same replica: " ++
    pyJoin ", " (dups.map (fun dup => dup.1 ++ " has " ++ dup.2))

/-- KafkaStatusValidation.perform_on_host as a function of the host name
and the raw output of the topic-listing command. -/
def statusPerformOnHost (host output : String) : Outcome :=
  if hasErrorMarker output then
    match pyFormat2
        (fun a0 a1 => "checking Kafka cluster health on " ++ a0 ++ " (" ++ a1 ++ ")")
        [pyStrPair host output] with
    | some msg => Outcome.failed ("An exception occurred while " ++ msg)
    | none => Outcome.pyerror
  else
    match topicsOf (reSplitTabNL output), leadersOf (reSplitTabNL output) with
    | some topics, some leaders =>
      if (duplicates (topics.zip leaders)).length ≠ 0 then
        Outcome.failed (statusDupMsg (duplicates (topics.zip leaders)))
      else Outcome.passed
    | _, _ => Outcome.pyerror

/-- Split a character list at every tab and at every CRLF pair, as
re.split with tab-or-CRLF does in KafkaConsumerLagMonitor.perform_on_host;
a lone carriage return is not a delimiter. -/
def splitTabCRLFChars : List Char → List (List Char)
  | [] => [[]]
  | '\t' :: rest => [] :: splitTabCRLFChars rest
  | '\r' :: '\n' :: rest => [] :: splitTabCRLFChars rest
  | c :: rest =>
    match splitTabCRLFChars rest with
    | [] => [[c]]
    | l :: ls => (c :: l) :: ls

/-- First-stage split of the lag checker output. -/
def splitTabCRLF (s : String) : List String :=
  (splitTabCRLFChars s.toList).map (fun l => String.mk l)

/-- The ASCII whitespace class of the Python regex used on byte strings. -/
def isPySpace (c : Char) : Bool :=
  c = ' ' || c = '\t' || c = '\n' || c = '\r' || c = '\x0b' || c = '\x0c'

/-- Scanner state for re.split on a run of two or more whitespace
characters: normal holds the field being accumulated, pending holds the
field plus one whitespace character that may yet turn out to start a
delimiter (the regex needs at least two), delim is inside a delimiter run
whose field has already been emitted (the plus is greedy, so the whole
maximal run is consumed). -/
inductive WS2State where
  | normal (acc : List Char) : WS2State
  | pending (acc : List Char) (sp : Char) : WS2State
  | delim : WS2State

/-- One-pass scanner implementing re.split on two-or-more whitespace. -/
def ws2Aux : List Char → WS2State → List (List Char)
  | [], WS2State.normal acc => [acc]
  | [], WS2State.pending acc sp => [acc ++ [sp]]
  | [], WS2State.delim => [[]]
  | c :: rest, WS2State.normal acc =>
    if isPySpace c then ws2Aux rest (WS2State.pending acc c)
    else ws2Aux rest (WS2State.normal (acc ++ [c]))
  | c :: rest, WS2State.pending acc sp =>
    if isPySpace c then acc :: ws2Aux rest WS2State.delim
    else ws2Aux rest (WS2State.normal (acc ++ [sp, c]))
  | c :: rest, WS2State.delim =>
    if isPySpace c then ws2Aux rest WS2State.delim
    else ws2Aux rest (WS2State.normal [c])

/-- Second-stage split of the lag checker: one line into fields. -/
def splitWS2 (s : String) : List String :=
  (ws2Aux s.toList (WS2State.normal [])).map (fun l => String.mk l)

/-- parsed of the lag checker after both comprehensions: each first-stage
piece split into fields, keeping only the rows with more than 2 fields. -/
def lagRows (output : String) : List (List String) :=
  ((splitTabCRLF output).map (fun p => splitWS2 p)).filter (fun item => item.length > 2)

/-- Python str.isdigit on a byte string: non-empty and all decimal digits. -/
def pyIsDigit (s : String) : Bool :=
  s.length > 0 && s.toList.all Char.isDigit

/-- Python int() on a decimal digit string. -/
def pyInt (s : String) : Nat :=
  s.toList.foldl (fun n c => 10 * n + (c.toNat - Char.toNat '0')) 0

/-- topics of the lag checker: field 1 of every row whose field 1 is not
the repeated header word Topic; none models the IndexError raised when a
row has no field 1 (never the case for rows of more than 2 fields). -/
def lagTopics : List (List String) → Option (List String)
  | [] => some []
  | item :: rest =>
    match item.get? 1, lagTopics rest with
    | some t, some ts => some (if t ≠ "Topic" then t :: ts else ts)
    | _, _ => none

/-- pids of the lag checker: field 2 of every row whose field 2 is all
digits; none models the IndexError raised when a row has no field 2. -/
def lagPids : List (List String) → Option (List String)
  | [] => some []
  | item :: rest =>
    match item.get? 2, lagPids rest with
    | some p, some ps => some (if pyIsDigit p then p :: ps else ps)
    | _, _ => none

/-- lags of the lag checker: int of field 5 of every row whose field 5 is
all digits; none models the IndexError raised when a row has no field 5,
which happens on every row of 3, 4 or 5 fields. -/
def lagLags : List (List String) → Option (List Nat)
  | [] => some []
  | item :: rest =>
    match item.get? 5, lagLags rest with
    | some s, some ls => some (if pyIsDigit s then pyInt s :: ls else ls)
    | _, _ => none

/-- Python zip over three lists: truncates to the shortest. -/
def zip3 : List String → List String → List Nat → List (String × String × Nat)
  | x :: xs, y :: ys, z :: zs => (x, y, z) :: zip3 xs ys zs
  | _, _, _ => []

/-- The failure message built by the lag checker for a non-empty laggers
list. -/
def lagMsg (laggers : List (String × String × Nat)) : String :=
  "Kafka consumers are lagging on topic " ++
    pyJoin ", " (laggers.map (fun lg =>
      lg.1 ++ " on PID " ++ lg.2.1 ++ " is lagging by " ++ toString lg.2.2 ++ " messages."))

/-- KafkaConsumerLagMonitor.perform_on_host as a function of the host
name and the raw output of the consumer offset checker command. -/
def lagPerformOnHost (host output : String) : Outcome :=
  if hasErrorMarker output then
    match pyFormat2
        (fun a0 a1 => "checking Kafka consumer lag on " ++ a0 ++ " (" ++ a1 ++ ")")
        [pyStrPair host output] with
    | some msg => Outcome.failed ("An exception occurred while " ++ msg)
    | none => Outcome.pyerror
  else
    match lagTopics (lagRows output), lagPids (lagRows output), lagLags (lagRows output) with
    | some topics, some pids, some lags =>
      if ((zip3 topics pids lags).filter (fun t => t.2.2 > 5)).length ≠ 0 then
        Outcome.failed (lagMsg ((zip3 topics pids lags).filter (fun t => t.2.2 > 5)))
      else Outcome.passed
    | _, _, _ => Outcome.pyerror

/-! Helper lemmas. -/

theorem optIdx_eq_map (xs : List String) :
    ∀ is : List Nat, (∀ i ∈ is, i < xs.length) →
      optIdx xs is = some (is.map (fun i => xs.getD i "")) := by
  intro is
  induction is with
  | nil => intro _; rfl
  | cons i is ih =>
    intro h
    have hi : i < xs.length := h i (List.mem_cons_self i is)
    have hg : xs[i]? = some (xs.getD i "") := by
      cases hx : xs[i]? with
      | none => rw [List.getElem?_eq_none_iff] at hx; omega
      | some v => rw [List.getD_eq_getElem?_getD, hx]; rfl
    have hg2 : xs.get? i = some (xs.getD i "") := by
      rw [List.get?_eq_getElem?]; exact hg
    have hrec := ih (fun j hj => h j (List.mem_cons_of_mem i hj))
    simp only [optIdx]
    rw [hg2, hrec]
    rfl

theorem xrange_eq (s n k step : Nat) (h : (n - s + step - 1) / step = k) :
    xrange s n step = List.range' s k step := by
  unfold xrange
  rw [h]

theorem mem_xrange_lt {s n i : Nat} (h : i ∈ xrange s n 5) : i < n := by
  unfold xrange at h
  rw [List.mem_range'] at h
  obtain ⟨j, hj, rfl⟩ := h
  omega

theorem topicsOf_eq (parsed : List String) : topicsOf parsed = some (topicsT parsed) := by
  unfold topicsOf topicsT
  exact optIdx_eq_map parsed _ (fun i hi => mem_xrange_lt hi)

theorem leadersOf_eq (parsed : List String) : leadersOf parsed = some (leadersT parsed) := by
  unfold leadersOf leadersT
  exact optIdx_eq_map parsed _ (fun i hi => mem_xrange_lt hi)

theorem statusPerform_noMarker (host output : String) (hm : hasErrorMarker output = false) :
    statusPerformOnHost host output =
      if (duplicates ((topicsT (reSplitTabNL output)).zip (leadersT (reSplitTabNL output)))).length ≠ 0 then
        Outcome.failed (statusDupMsg
          (duplicates ((topicsT (reSplitTabNL output)).zip (leadersT (reSplitTabNL output)))))
      else Outcome.passed := by
  unfold statusPerformOnHost
  simp [hm, topicsOf_eq, leadersOf_eq]

theorem duplicates_eq_nil_of_count_le_one (l : List (String × String))
    (h : ∀ p, l.count p ≤ 1) : duplicates l = [] := by
  unfold duplicates counterItems
  rw [List.map_eq_nil_iff, List.filter_eq_nil_iff]
  intro kv hkv
  rw [List.mem_map] at hkv
  obtain ⟨k, _, rfl⟩ := hkv
  simp only [decide_eq_true_eq, gt_iff_lt, Nat.not_lt]
  exact h k

theorem lagRows_len (output : String) : ∀ r ∈ lagRows output, 2 < r.length := by
  intro r hr
  unfold lagRows at hr
  rw [List.mem_filter] at hr
  have h2 := hr.2
  simpa using h2

theorem lagTopics_isSome : ∀ rows : List (List String), (∀ r ∈ rows, 2 < r.length) →
    ∃ ts, lagTopics rows = some ts := by
  intro rows
  induction rows with
  | nil => intro _; exact ⟨[], rfl⟩
  | cons item rest ih =>
    intro h
    have h1 : 2 < item.length := h item (List.mem_cons_self _ _)
    have hg : item.get? 1 = some (item.getD 1 "") := by
      rw [List.get?_eq_getElem?, List.getD_eq_getElem?_getD]
      cases hx : item[1]? with
      | none => rw [List.getElem?_eq_none_iff] at hx; omega
      | some v => rfl
    obtain ⟨ts, hts⟩ := ih (fun r hr => h r (List.mem_cons_of_mem _ hr))
    refine ⟨if item.getD 1 "" ≠ "Topic" then item.getD 1 "" :: ts else ts, ?_⟩
    simp only [lagTopics]
    rw [hg, hts]

theorem lagPids_isSome : ∀ rows : List (List String), (∀ r ∈ rows, 2 < r.length) →
    ∃ ps, lagPids rows = some ps := by
  intro rows
  induction rows with
  | nil => intro _; exact ⟨[], rfl⟩
  | cons item rest ih =>
    intro h
    have h1 : 2 < item.length := h item (List.mem_cons_self _ _)
    have hg : item.get? 2 = some (item.getD 2 "") := by
      rw [List.get?_eq_getElem?, List.getD_eq_getElem?_getD]
      cases hx : item[2]? with
      | none => rw [List.getElem?_eq_none_iff] at hx; omega
      | some v => rfl
    obtain ⟨ps, hps⟩ := ih (fun r hr => h r (List.mem_cons_of_mem _ hr))
    refine ⟨if pyIsDigit (item.getD 2 "") then item.getD 2 "" :: ps else ps, ?_⟩
    simp only [lagPids]
    rw [hg, hps]

theorem zip3_mem_third : ∀ (xs ys : List String) (zs : List Nat)
    (a : String × String × Nat), a ∈ zip3 xs ys zs → a.2.2 ∈ zs := by
  intro xs
  induction xs with
  | nil =>
    intro ys zs a ha
    rw [show zip3 [] ys zs = [] from rfl] at ha
    exact absurd ha (List.not_mem_nil a)
  | cons x xs ih =>
    intro ys zs a ha
    cases ys with
    | nil =>
      rw [show zip3 (x :: xs) [] zs = [] from rfl] at ha
      exact absurd ha (List.not_mem_nil a)
    | cons y ys =>
      cases zs with
      | nil =>
        rw [show zip3 (x :: xs) (y :: ys) [] = [] from rfl] at ha
        exact absurd ha (List.not_mem_nil a)
      | cons z zs =>
        rw [show zip3 (x :: xs) (y :: ys) (z :: zs) = (x, y, z) :: zip3 xs ys zs from rfl] at ha
        rcases List.mem_cons.mp ha with h | h
        · rw [h]; exact List.mem_cons_self _ _
        · exact List.mem_cons_of_mem _ (ih ys zs a h)

/-! Claim theorems. -/

/-- C1 (code bug demonstration): on raw output containing a failure
marker, both perform_on_host bodies build the diagnostic by calling
format with a single tuple argument on a template that references
positional fields 0 and 1, so the call raises IndexError: no host-level
failure is ever reported, and parsing never runs because the exception
propagates. -/
theorem c1_marker_branch_raises_index_error :
    hasErrorMarker "Exception" = true ∧
    statusPerformOnHost "myhost" "Exception" = Outcome.pyerror ∧
    lagPerformOnHost "myhost" "Exception" = Outcome.pyerror :=
  ⟨rfl, rfl, rfl⟩

/-- C2 (code bug demonstration): a line that splits into exactly 3 fields
passes the more-than-2-fields row filter, and the lag comprehension then
indexes its field 5, raising IndexError; record extraction is therefore
not total on 3-to-5-field rows. -/
theorem c2_short_row_raises_index_error :
    splitWS2 "a  b  c" = ["a", "b", "c"] ∧
    lagLags (lagRows "a  b  c") = none ∧
    lagPerformOnHost "h" "a  b  c" = Outcome.pyerror :=
  ⟨rfl, rfl, rfl⟩

/-- C3: on raw output with no failure marker in which no (topic, leader)
pair of the stride-5 extraction occurs more than once, the status checker
passes; an empty record set is in particular a pass. -/
theorem c3_no_duplicates_passes (host output : String)
    (hm : hasErrorMarker output = false)
    (hd : ∀ p : String × String,
      ((topicsT (reSplitTabNL output)).zip (leadersT (reSplitTabNL output))).count p ≤ 1) :
    statusPerformOnHost host output = Outcome.passed := by
  rw [statusPerform_noMarker host output hm]
  rw [duplicates_eq_nil_of_count_le_one _ hd]
  simp

theorem c3_no_duplicates_passes_witness :
    hasErrorMarker "" = false ∧ statusPerformOnHost "somehost" "" = Outcome.passed :=
  ⟨rfl, c3_no_duplicates_passes "somehost" "" rfl (by
    intro p
    rw [show (topicsT (reSplitTabNL "")).zip (leadersT (reSplitTabNL "")) = [] from rfl]
    simp)⟩

/-- C4 counterexample: on output in which the pair (t, l) occurs three
times the status checker fails, but its message contains no digit at all,
hence not the occurrence count 3 demanded by the claim. -/
theorem c4_message_lacks_count :
    ((topicsT (reSplitTabNL "t\ta\tl\tb\tc\tt\ta\tl\tb\tc\tt\ta\tl\tb\tc")).zip
        (leadersT (reSplitTabNL "t\ta\tl\tb\tc\tt\ta\tl\tb\tc\tt\ta\tl\tb\tc"))).count ("t", "l") = 3 ∧
    statusPerformOnHost "h" "t\ta\tl\tb\tc\tt\ta\tl\tb\tc\tt\ta\tl\tb\tc" =
      Outcome.failed ("Kafka partitions are out of sync. " ++
        "Multiple leaders for the same partition " ++
        "for the same replica: " ++ "t has l") ∧
    ("Kafka partitions are out of sync. " ++
        "Multiple leaders for the same partition " ++
        "for the same replica: " ++ "t has l").toList.all (fun c => !c.isDigit) = true :=
  ⟨rfl, rfl, rfl⟩

/-- C4 as amended: when at least one (topic, leader) pair is duplicated,
the checker fails with a message enumerating each duplicated pair, in the
form topic has leader, without its occurrence count. -/
theorem c4_amended_message_enumerates_pairs (host output : String)
    (hm : hasErrorMarker output = false)
    (hd : (duplicates ((topicsT (reSplitTabNL output)).zip (leadersT (reSplitTabNL output)))).length ≠ 0) :
    statusPerformOnHost host output =
      Outcome.failed (statusDupMsg
        (duplicates ((topicsT (reSplitTabNL output)).zip (leadersT (reSplitTabNL output))))) := by
  rw [statusPerform_noMarker host output hm]
  simp [hd]

theorem c4_amended_message_enumerates_pairs_witness :
    statusPerformOnHost "h" "t\ta\tl\tb\tc\tt\ta\tl\tb\tc\tt\ta\tl\tb\tc" =
      Outcome.failed (statusDupMsg
        (duplicates ((topicsT (reSplitTabNL "t\ta\tl\tb\tc\tt\ta\tl\tb\tc\tt\ta\tl\tb\tc")).zip
          (leadersT (reSplitTabNL "t\ta\tl\tb\tc\tt\ta\tl\tb\tc\tt\ta\tl\tb\tc"))))) :=
  c4_amended_message_enumerates_pairs "h" "t\ta\tl\tb\tc\tt\ta\tl\tb\tc\tt\ta\tl\tb\tc" rfl (by decide)

/-- C5: raw output with no failure marker that tokenizes into two
5-field groups whose slot-0 and slot-2 tokens form the same
(topic, leader) pair makes the status checker fail with a message naming
exactly that pair. -/
theorem c5_two_groups_same_pair (host output t b l d e g i j : String)
    (hm : hasErrorMarker output = false)
    (hp : reSplitTabNL output = [t, b, l, d, e, t, g, l, i, j]) :
    statusPerformOnHost host output =
      Outcome.failed ("Kafka partitions are out of sync. " ++
        "Multiple leaders for the same partition " ++
        "for the same replica: " ++ (t ++ " has " ++ l)) := by
  rw [statusPerform_noMarker host output hm, hp]
  have hlen : List.length [t, b, l, d, e, t, g, l, i, j] = 10 := rfl
  have htt : topicsT [t, b, l, d, e, t, g, l, i, j] = [t, t] := by
    unfold topicsT
    rw [hlen, xrange_eq 0 10 2 5 (by norm_num)]
    rfl
  have hll : leadersT [t, b, l, d, e, t, g, l, i, j] = [l, l] := by
    unfold leadersT
    rw [hlen, xrange_eq 2 10 2 5 (by norm_num)]
    rfl
  rw [htt, hll]
  have hz : List.zip [t, t] [l, l] = [(t, l), (t, l)] := rfl
  rw [hz]
  have hfk : firstOccKeys [(t, l), (t, l)] = [(t, l)] := by
    unfold firstOccKeys
    simp [firstOccAux]
  have hc : List.count (t, l) [(t, l), (t, l)] = 2 := by simp
  have hdup : duplicates [(t, l), (t, l)] = [(t, l)] := by
    unfold duplicates counterItems
    rw [hfk]
    simp [hc]
  rw [hdup]
  simp [statusDupMsg, pyJoin]

theorem c5_two_groups_same_pair_witness :
    statusPerformOnHost "h" "A\tb\tL\td\te\tA\tg\tL\ti\tj" =
      Outcome.failed ("Kafka partitions are out of sync. " ++
        "Multiple leaders for the same partition " ++
        "for the same replica: " ++ ("A" ++ " has " ++ "L")) :=
  c5_two_groups_same_pair "h" "A\tb\tL\td\te\tA\tg\tL\ti\tj"
    "A" "b" "L" "d" "e" "g" "i" "j" rfl rfl

/-- C6: on the single data row ignored-mytopic-3-x-x-10 (fields split on
runs of two or more whitespace characters), the lag checker fails and the
message contains mytopic on PID 3 is lagging by 10 messages. -/
theorem c6_lag_example_fails :
    lagPerformOnHost "somehost" "ignored  mytopic  3  x  x  10" =
      Outcome.failed
        "Kafka consumers are lagging on topic mytopic on PID 3 is lagging by 10 messages." ∧
    strContains
      "Kafka consumers are lagging on topic mytopic on PID 3 is lagging by 10 messages."
      "mytopic on PID 3 is lagging by 10 messages." = true :=
  ⟨rfl, rfl⟩

/-- C7 counterexample: the input a-b-c has no failure marker and no lag
value is ever parsed from it (extraction of field 5 raises IndexError,
modelled as none), yet the lag checker does not report pass, refuting the
literal claim that every input whose parsed lag values are all at most 5
passes. -/
theorem c7_counterexample :
    hasErrorMarker "a  b  c" = false ∧
    lagLags (lagRows "a  b  c") = none ∧
    lagPerformOnHost "h" "a  b  c" ≠ Outcome.passed :=
  ⟨rfl, rfl, by decide⟩

/-- C7 as amended: on raw output with no failure marker on which lag
extraction succeeds and every parsed lag value is at most 5, the lag
checker passes; in particular a lag of exactly 5 is not flagged. -/
theorem c7_amended_all_lags_le_five_pass (host output : String) (ls : List Nat)
    (hm : hasErrorMarker output = false)
    (hl : lagLags (lagRows output) = some ls)
    (hall : ∀ x ∈ ls, x ≤ 5) :
    lagPerformOnHost host output = Outcome.passed := by
  obtain ⟨ts, hts⟩ := lagTopics_isSome (lagRows output) (lagRows_len output)
  obtain ⟨ps, hps⟩ := lagPids_isSome (lagRows output) (lagRows_len output)
  unfold lagPerformOnHost
  rw [if_neg (by simp [hm])]
  rw [hts, hps, hl]
  have hfilter : (zip3 ts ps ls).filter (fun t => t.2.2 > 5) = [] := by
    rw [List.filter_eq_nil_iff]
    intro a ha
    have h2 := zip3_mem_third ts ps ls a ha
    have h3 := hall _ h2
    simp only [decide_eq_true_eq, gt_iff_lt, Nat.not_lt]
    exact h3
  simp [hfilter]

theorem c7_amended_all_lags_le_five_pass_witness :
    lagPerformOnHost "h" "a  t  0  x  x  5" = Outcome.passed :=
  c7_amended_all_lags_le_five_pass "h" "a  t  0  x  x  5" [5] rfl rfl (by decide)

/-- C8 (code bug demonstration): in the two-row output whose first row is
a header row with topic field Topic and numeric pid 7 and lag 100, the
header row is dropped only from the topics list; its pid and lag survive
the independent filters, the zip misaligns, and the reported lagging
triple (realtopic, 7, 100) draws its pid and lag from the header row. -/
theorem c8_header_row_fields_leak :
    lagTopics (lagRows "h  Topic  7  x  x  100\r\na  realtopic  0  x  x  0")
      = some ["realtopic"] ∧
    lagPids (lagRows "h  Topic  7  x  x  100\r\na  realtopic  0  x  x  0")
      = some ["7", "0"] ∧
    lagLags (lagRows "h  Topic  7  x  x  100\r\na  realtopic  0  x  x  0")
      = some [100, 0] ∧
    lagPerformOnHost "h" "h  Topic  7  x  x  100\r\na  realtopic  0  x  x  0" =
      Outcome.failed
        "Kafka consumers are lagging on topic realtopic on PID 7 is lagging by 100 messages." :=
  ⟨rfl, rfl, rfl, rfl⟩

/-- C9: both checkers and their parsing pipelines are pure functions of
the input text, so two invocations on character-identical raw output
yield identical record sets and identical reports. -/
theorem c9_deterministic (host output : String) :
    statusPerformOnHost host output = statusPerformOnHost host output ∧
    lagPerformOnHost host output = lagPerformOnHost host output ∧
    reSplitTabNL output = reSplitTabNL output ∧
    lagRows output = lagRows output ∧
    topicsOf (reSplitTabNL output) = topicsOf (reSplitTabNL output) ∧
    lagLags (lagRows output) = lagLags (lagRows output) :=
  ⟨rfl, rfl, rfl, rfl, rfl, rfl⟩

/-- C10: the stride-5 index sequences of the status checker are always
within bounds (indexing never fails), and when the token count is 1 or 2
modulo 5 the topics list is one longer than the leaders list, so zip
truncation silently drops the final topic token instead of erroring. -/
theorem c10_stride_extraction_total :
    (∀ output : String,
      topicsOf (reSplitTabNL output) ≠ none ∧ leadersOf (reSplitTabNL output) ≠ none) ∧
    (∀ output : String,
      (reSplitTabNL output).length % 5 = 1 ∨ (reSplitTabNL output).length % 5 = 2 →
      (topicsT (reSplitTabNL output)).length = (leadersT (reSplitTabNL output)).length + 1 ∧
      ((topicsT (reSplitTabNL output)).zip (leadersT (reSplitTabNL output))).length
        = (leadersT (reSplitTabNL output)).length) := by
  constructor
  · intro output
    constructor
    · rw [topicsOf_eq]; simp
    · rw [leadersOf_eq]; simp
  · intro output h
    have ht : (topicsT (reSplitTabNL output)).length
        = ((reSplitTabNL output).length - 0 + 5 - 1) / 5 := by
      unfold topicsT xrange
      rw [List.length_map, List.length_range']
    have hl2 : (leadersT (reSplitTabNL output)).length
        = ((reSplitTabNL output).length - 2 + 5 - 1) / 5 := by
      unfold leadersT xrange
      rw [List.length_map, List.length_range']
    refine ⟨?_, ?_⟩
    · rw [ht, hl2]
      rcases h with h | h <;> omega
    · rw [List.length_zip, ht, hl2]
      rcases h with h | h <;> omega

theorem c10_stride_extraction_total_witness :
    topicsOf (reSplitTabNL "a\tb\tc\td\te\tf\tg") ≠ none ∧
    (topicsT (reSplitTabNL "a\tb\tc\td\te\tf\tg")).length
      = (leadersT (reSplitTabNL "a\tb\tc\td\te\tf\tg")).length + 1 ∧
    ((topicsT (reSplitTabNL "a\tb\tc\td\te\tf\tg")).zip
        (leadersT (reSplitTabNL "a\tb\tc\td\te\tf\tg"))).length
      = (leadersT (reSplitTabNL "a\tb\tc\td\te\tf\tg")).length :=
  ⟨(c10_stride_extraction_total.1 "a\tb\tc\td\te\tf\tg").1,
   (c10_stride_extraction_total.2 "a\tb\tc\td\te\tf\tg" (Or.inr (by decide))).1,
   (c10_stride_extraction_total.2 "a\tb\tc\td\te\tf\tg" (Or.inr (by decide))).2⟩

end Alarmageddon
